import Mathlib

/-!
Shallow embedding of the GAVIP example AVI pipeline tasks defined in
`src/tasks.py` (classes `DummyTask`, `DownloadData`, `ProcessData`), together
with theorems checking the natural-language specification against the code.

Modelling conventions:
* A filesystem is a partial map from path strings to content strings; file
  contents (text or bytes) are modelled uniformly as Lean strings.
* The wall clock is threaded explicitly as a natural number where the source
  sleeps or polls (`time.sleep`, poll interval), so that independence of the
  written content from timing is a statable property.
* The remote TAP service used by `DownloadData.run` is an oracle (`DlWorld`)
  giving the outcome of the job run, of the result fetch, and of the local
  file write; the observable actions of the stage are recorded as an event
  trace (`DlEvent`).
* Numeric VOTable fields are modelled as exact rationals; Python `float(...)`
  conversion of a numeric field is the identity in the model, and the numpy
  assignment into an `int` array (`List = np.array([0,0,0]); List[i] = float(...)`)
  is truncation toward zero, `ratTrunc`.
* The external pure library renderers (pandas `describe().to_html`,
  `pandas_profiling.ProfileReport(...).html`, `json.dumps` of the analysis
  context, and `json.dump(mpld3.fig_to_dict(fig))`) are parameters of the
  stage (`ExtLibs`): arbitrary deterministic functions of their inputs.
-/

/-- A filesystem: a partial map from paths to file contents. -/
abbrev FS := String → Option String

/-- Writing a file stores the content at the path, replacing any previous
content (mode "w"/"wb" truncates). -/
def fsWrite (fs : FS) (p c : String) : FS :=
  fun q => if q = p then some c else fs q

/-- Model of `os.path.join(settings.OUTPUT_PATH, rel)` for the shapes used in
tasks.py: a configured directory joined with a relative file name. -/
def pathJoin (dir file : String) : String := dir ++ "/" ++ file

/-- Output path of `DummyTask`: `os.path.join(OUTPUT_PATH, 'dummyData_%s.vot' % outputFile)`
(tasks.py lines 55-58). -/
def DummyTask.outPath (dir name : String) : String :=
  pathJoin dir ("dummyData_" ++ name ++ ".vot")

/-- Embedding of `DummyTask.run` (tasks.py lines 60-63): sleep three seconds,
then write the fixed marker string to the output path. The result is the
filesystem after the write and the clock after the sleep. -/
def DummyTask.run (dir name : String) (now : Nat) (fs : FS) : FS × Nat :=
  (fsWrite fs (DummyTask.outPath dir name) "dummyStuff", now + 3)

/-- Observable actions of `DownloadData.run`, in program order: constructing
the `AsyncJob`, running it (start + wait + raise_exception), opening the
result, writing the local output file, and deleting the remote job. -/
inductive DlEvent where
  | jobConstruct (target : String) (query : String)
  | jobRun
  | openResult
  | fileWrite (content : String)
  | jobDelete
deriving DecidableEq

/-- Oracle for the external world seen by `DownloadData.run`: the outcome of
`gacs_tap_conn.run()`, the outcome of `open_result()` (on success, the bytes
of `result.content`), and the outcome of the local file write. -/
structure DlWorld where
  runOutcome : Except String Unit
  fetchOutcome : Except String String
  writeOutcome : Except String Unit

/-- Result of one execution of `DownloadData.run`: the Python-level outcome
(normal return or propagated exception message), the trace of observable
actions that happened, and the content written to the output file, if the
write completed. -/
structure DlOutcome where
  result : Except String Unit
  events : List DlEvent
  written : Option String

/-- Python truthiness test used at tasks.py line 87:
`not hasattr(self, 'query') or not self.query`. A missing parameter is `none`;
an empty string is falsy. -/
def queryFalsy : Option String → Bool
  | none => true
  | some s => s = ""

/-- The fixed TAP endpoint of tasks.py line 91. -/
def gacsTarget : String := "http://tapvizier.u-strasbg.fr/TAPVizieR/tap"

/-- Output path of `DownloadData` (tasks.py lines 77-80). -/
def DownloadData.outPath (dir name : String) : String :=
  pathJoin dir ("simulatedData_" ++ name ++ ".vot")

/-- Embedding of `DownloadData.run` (tasks.py lines 86-104). The query check
happens first; only then is the `AsyncJob` constructed and run, the result
fetched, the file written, and finally the remote job deleted. Each external
step may raise, in which case the later steps do not happen (straight-line
code with no handlers). The clock argument is unused by the content. -/
def DownloadData.run (query : Option String) (w : DlWorld) (_now : Nat) : DlOutcome :=
  if queryFalsy query then
    { result := Except.error "query parameter must be provided within pipeline task",
      events := [], written := none }
  else
    let q := query.getD ""
    match w.runOutcome with
    | Except.error e =>
      { result := Except.error e,
        events := [DlEvent.jobConstruct gacsTarget q, DlEvent.jobRun], written := none }
    | Except.ok _ =>
      match w.fetchOutcome with
      | Except.error e =>
        { result := Except.error e,
          events := [DlEvent.jobConstruct gacsTarget q, DlEvent.jobRun, DlEvent.openResult],
          written := none }
      | Except.ok content =>
        match w.writeOutcome with
        | Except.error e =>
          { result := Except.error e,
            events := [DlEvent.jobConstruct gacsTarget q, DlEvent.jobRun, DlEvent.openResult],
            written := none }
        | Except.ok _ =>
          { result := Except.ok (),
            events := [DlEvent.jobConstruct gacsTarget q, DlEvent.jobRun, DlEvent.openResult,
                       DlEvent.fileWrite content, DlEvent.jobDelete],
            written := some content }

/-- The stage together with its filesystem effect: the output file is updated
exactly when the write completed. -/
def DownloadData.runFs (query : Option String) (w : DlWorld) (now : Nat)
    (dir name : String) (fs : FS) : DlOutcome × FS :=
  let o := DownloadData.run query w now
  match o.written with
  | some c => (o, fsWrite fs (DownloadData.outPath dir name) c)
  | none => (o, fs)

/-- A parsed VOTable (the result of `Table.read(path, format='votable')`):
column names and rows, each row listing its field values as exact rationals. -/
structure VOTable where
  colnames : List String
  rows : List (List Rat)
deriving DecidableEq

/-- A pandas dataframe as built by tasks.py: labelled integer columns. -/
structure DataFrame where
  colnames : List String
  rows : List (List Int)
deriving DecidableEq

/-- The matplotlib figure state observable through `mpld3.fig_to_dict`: axis
labels, the scatter points (x, y, color) in plot order, and the color bar
label. -/
structure Figure where
  xlabel : String
  ylabel : String
  points : List (Rat × Rat × Rat)
  colorbarLabel : String
deriving DecidableEq

/-- External pure library renderers used by `ProcessData.run`, passed as
parameters of the embedding: `gaiadf.describe().to_html(...)`,
`pandas_profiling.ProfileReport(gaiadf).html`, `json.dumps` of the
two-field analysis context, and `json.dump(mpld3.fig_to_dict(fig))`
composed into the string written to the output file. -/
structure ExtLibs where
  describeHtml : DataFrame → String
  profileHtml : DataFrame → String
  jsonDumpsCtx : String → String → String
  figJson : Figure → String

/-- Result of a successful `ProcessData.run`: the full dataframe, the
three-column selection, the figure, the serialized analysis context
(`panda_str`), the log lines emitted, and the content written to the output
file. -/
structure ProcResult where
  df : DataFrame
  gaiadf : DataFrame
  fig : Figure
  pandaStr : String
  log : List String
  outContent : String

/-- Truncation toward zero of an exact rational, as performed by assigning a
Python float into a numpy int64 array (C cast semantics). -/
def ratTrunc (q : Rat) : Int := Int.tdiv q.num (q.den : Int)

/-- Embedding of the loop body at tasks.py lines 139-148: take the first three
fields of the row (IndexError when the row is shorter) and store them into an
integer array, truncating. -/
def rowTriple : List Rat → Except String (List Int)
  | q0 :: q1 :: q2 :: _ => Except.ok [ratTrunc q0, ratTrunc q1, ratTrunc q2]
  | _ => Except.error "IndexError: list index out of range"

/-- Sequencing of fallible per-element computations, failing at the first
error, as Python exceptions do in a loop. -/
def mapME {α β : Type} (f : α → Except String β) : List α → Except String (List β)
  | [] => Except.ok []
  | a :: as =>
    match f a with
    | Except.error e => Except.error e
    | Except.ok b =>
      match mapME f as with
      | Except.error e => Except.error e
      | Except.ok bs => Except.ok (b :: bs)

/-- The whole conversion loop (tasks.py lines 135-148): build the list `Arr`
of truncated triples, row by row. -/
def buildArr (rows : List (List Rat)) : Except String (List (List Int)) :=
  mapME rowTriple rows

/-- Embedding of `np.ma.filled(Arr)` followed by
`pd.DataFrame(b, columns=t.colnames)` (tasks.py lines 150-151). The numpy
array built from `Arr` has shape (N, 3) when N is positive and shape (0, 1)
when `Arr` is empty (a one-dimensional empty array is treated by pandas as a
single column); pandas raises ValueError unless the number of column labels
matches. -/
def buildDf (colnames : List String) (arr : List (List Int)) : Except String DataFrame :=
  if colnames.length = (if arr.isEmpty then 1 else 3) then Except.ok ⟨colnames, arr⟩
  else Except.error "ValueError: shape of passed values does not match columns"

/-- Position of a column name in a schema (first occurrence), as used by
pandas column selection and astropy column access. -/
def colIndex (names : List String) (n : String) : Option Nat :=
  match names with
  | [] => none
  | c :: cs => if c = n then some 0 else (colIndex cs n).map (· + 1)

/-- The fixed selection list of tasks.py line 153. -/
def gaiamagcols : List String := ["ra_floor", "dec_floor", "nb"]

/-- Lookup of one requested column name in a schema, as pandas does during
column selection: its position on success, a KeyError when absent. -/
def lookupIdx (cols : List String) (n : String) : Except String Nat :=
  match colIndex cols n with
  | some i => Except.ok i
  | none => Except.error ("KeyError: " ++ n)

/-- Embedding of `df[gaiamagcols]` (tasks.py line 154): look each requested
name up in the schema (KeyError when absent) and project every row to the
selected positions. -/
def selectCols (df : DataFrame) (names : List String) : Except String DataFrame :=
  match mapME (lookupIdx df.colnames) names with
  | Except.error e => Except.error e
  | Except.ok idxs => Except.ok ⟨names, df.rows.map (fun r => idxs.map (fun i => r.getD i 0))⟩

/-- Embedding of astropy column access `t[name]` on the parsed table:
KeyError when the column is absent, otherwise the column values row by row. -/
def tblCol (t : VOTable) (name : String) : Except String (List Rat) :=
  match colIndex t.colnames name with
  | none => Except.error ("KeyError: " ++ name)
  | some i => Except.ok (t.rows.map (fun r => r.getD i 0))

/-- Comparison by the count field, the key of `count.argsort()` at
tasks.py line 167. -/
def nbLe (a b : Rat × Rat × Rat) : Prop := a.2.2 ≤ b.2.2

instance : DecidableRel nbLe := fun a b => inferInstanceAs (Decidable (a.2.2 ≤ b.2.2))

instance : IsTotal (Rat × Rat × Rat) nbLe := ⟨fun a b => le_total a.2.2 b.2.2⟩

instance : IsTrans (Rat × Rat × Rat) nbLe := ⟨fun _ _ _ h1 h2 => le_trans h1 h2⟩

/-- Embedding of the figure construction (tasks.py lines 158-172): extract the
three plotted columns from the parsed table, reorder all three consistently by
ascending count (`argsort`), scatter them, and label the color bar. -/
def mkFig (t : VOTable) : Except String Figure :=
  match tblCol t "ra_floor" with
  | Except.error e => Except.error e
  | Except.ok x =>
    match tblCol t "dec_floor" with
    | Except.error e => Except.error e
    | Except.ok y =>
      match tblCol t "nb" with
      | Except.error e => Except.error e
      | Except.ok c =>
        Except.ok { xlabel := "ra", ylabel := "dec",
                    points := List.insertionSort nbLe (List.zip x (List.zip y c)),
                    colorbarLabel := "Counts" }

/-- Embedding of `ProcessData.run` (tasks.py lines 126-189) over an already
parsed table: build the truncated matrix, the labelled dataframe, the
three-column selection, and the figure; compute the analysis context from the
selection, serialize it, log it, and produce the figure JSON as the only
content written to the output file. The clock argument is unused by the
content. -/
def ProcessData.run (t : VOTable) (libs : ExtLibs) (inPath : String) (_now : Nat) :
    Except String ProcResult :=
  match buildArr t.rows with
  | Except.error e => Except.error e
  | Except.ok arr =>
    match buildDf t.colnames arr with
    | Except.error e => Except.error e
    | Except.ok df =>
      match selectCols df gaiamagcols with
      | Except.error e => Except.error e
      | Except.ok gaiadf =>
        match mkFig t with
        | Except.error e => Except.error e
        | Except.ok fig =>
          Except.ok { df := df, gaiadf := gaiadf, fig := fig,
                      pandaStr := libs.jsonDumpsCtx (libs.describeHtml gaiadf)
                                    (libs.profileHtml gaiadf),
                      log := ["Input VOTable file: " ++ inPath,
                              libs.jsonDumpsCtx (libs.describeHtml gaiadf)
                                (libs.profileHtml gaiadf)],
                      outContent := libs.figJson fig }

/-- Output path of `ProcessData` (tasks.py lines 118-121). -/
def ProcessData.outPath (dir name : String) : String := pathJoin dir name

/-- The stage together with its filesystem effect (tasks.py lines 188-189):
on success the figure JSON is written to the output path; a propagated
exception leaves the filesystem untouched. -/
def ProcessData.runFs (t : VOTable) (libs : ExtLibs) (inPath outPath : String)
    (now : Nat) (fs : FS) : Except String ProcResult × FS :=
  match ProcessData.run t libs inPath now with
  | Except.ok r => (Except.ok r, fsWrite fs outPath r.outContent)
  | Except.error e => (Except.error e, fs)

lemma fsWrite_self (fs : FS) (p c : String) : fsWrite fs p c p = some c := by
  simp [fsWrite]

lemma mapME_nil {α β : Type} (f : α → Except String β) : mapME f [] = Except.ok [] := rfl

lemma mapME_ok_map {α β : Type} {f : α → Except String β} {g : α → β}
    (hfg : ∀ x b, f x = Except.ok b → b = g x) :
    ∀ {l : List α} {ys : List β}, mapME f l = Except.ok ys → ys = l.map g := by
  intro l
  induction l with
  | nil =>
    intro ys h
    simp only [mapME] at h
    cases h
    rfl
  | cons a as ih =>
    intro ys h
    simp only [mapME] at h
    cases hfa : f a with
    | error e => rw [hfa] at h; cases h
    | ok b =>
      rw [hfa] at h
      cases hrec : mapME f as with
      | error e => rw [hrec] at h; cases h
      | ok bs =>
        rw [hrec] at h
        cases h
        simp [hfg a b hfa, ih hrec]

lemma mapME_ok_length {α β : Type} {f : α → Except String β} :
    ∀ {l : List α} {ys : List β}, mapME f l = Except.ok ys → ys.length = l.length := by
  intro l
  induction l with
  | nil =>
    intro ys h
    simp only [mapME] at h
    cases h
    rfl
  | cons a as ih =>
    intro ys h
    simp only [mapME] at h
    cases hfa : f a with
    | error e => rw [hfa] at h; cases h
    | ok b =>
      rw [hfa] at h
      cases hrec : mapME f as with
      | error e => rw [hrec] at h; cases h
      | ok bs =>
        rw [hrec] at h
        cases h
        simp [ih hrec]

lemma mapME_error_of_mem {α β : Type} {f : α → Except String β} {x : α} {e : String} :
    ∀ {l : List α}, x ∈ l → f x = Except.error e → ∃ e2, mapME f l = Except.error e2 := by
  intro l
  induction l with
  | nil => intro hx; cases hx
  | cons a as ih =>
    intro hx hfx
    simp only [mapME]
    cases hfa : f a with
    | error e3 => exact ⟨e3, rfl⟩
    | ok b =>
      rcases List.mem_cons.mp hx with hxa | hxas
      · rw [hxa] at hfx; rw [hfx] at hfa; cases hfa
      · obtain ⟨e2, he2⟩ := ih hxas hfx
        rw [he2]
        exact ⟨e2, rfl⟩

lemma mapME_ok_of_forall {α β : Type} {f : α → Except String β} :
    ∀ {l : List α}, (∀ x ∈ l, ∃ b, f x = Except.ok b) → ∃ bs, mapME f l = Except.ok bs := by
  intro l
  induction l with
  | nil => intro _; exact ⟨[], rfl⟩
  | cons a as ih =>
    intro h
    obtain ⟨b, hb⟩ := h a (List.mem_cons_self a as)
    obtain ⟨bs, hbs⟩ := ih (fun x hx => h x (List.mem_cons_of_mem a hx))
    refine ⟨b :: bs, ?_⟩
    simp only [mapME]
    rw [hb, hbs]

lemma colIndex_eq_none_of_not_mem :
    ∀ {names : List String} {n : String}, n ∉ names → colIndex names n = none := by
  intro names
  induction names with
  | nil => intro n _; rfl
  | cons c cs ih =>
    intro n hn
    have hc : ¬ c = n := fun hc => hn (by rw [← hc]; exact List.mem_cons_self c cs)
    have hcs : n ∉ cs := fun hmem => hn (List.mem_cons_of_mem c hmem)
    simp only [colIndex]
    rw [if_neg hc, ih hcs]
    rfl

lemma colIndex_isSome_of_mem :
    ∀ {names : List String} {n : String}, n ∈ names → ∃ i, colIndex names n = some i := by
  intro names
  induction names with
  | nil => intro n hn; cases hn
  | cons c cs ih =>
    intro n hn
    simp only [colIndex]
    by_cases hc : c = n
    · exact ⟨0, by rw [if_pos hc]⟩
    · rcases List.mem_cons.mp hn with hnc | hncs
      · exact absurd hnc.symm hc
      · obtain ⟨i, hi⟩ := ih hncs
        exact ⟨i + 1, by rw [if_neg hc, hi]; rfl⟩

lemma zip_map_triple {α : Type} (f g h : α → Rat) :
    ∀ l : List α,
      List.zip (l.map f) (List.zip (l.map g) (l.map h)) = l.map (fun a => (f a, g a, h a)) := by
  intro l
  induction l with
  | nil => rfl
  | cons a as ih => simp [List.zip, ih]

lemma rowTriple_ok_eq {d : List Rat} {v : List Int} (h : rowTriple d = Except.ok v) :
    v = [ratTrunc (d.getD 0 0), ratTrunc (d.getD 1 0), ratTrunc (d.getD 2 0)] := by
  match d with
  | q0 :: q1 :: q2 :: rest => simp only [rowTriple] at h; cases h; rfl
  | [] => cases h
  | [_] => cases h
  | [_, _] => cases h

lemma rowTriple_ok_of_len {d : List Rat} (h : 3 ≤ d.length) :
    ∃ v, rowTriple d = Except.ok v := by
  match d with
  | q0 :: q1 :: q2 :: rest => exact ⟨_, rfl⟩
  | [] => simp at h
  | [_] => simp at h
  | [_, _] => simp at h

lemma buildDf_ok_elim {c : List String} {a : List (List Int)} {d : DataFrame}
    (h : buildDf c a = Except.ok d) : d = ⟨c, a⟩ := by
  unfold buildDf at h
  by_cases hc : c.length = (if a.isEmpty then 1 else 3)
  · rw [if_pos hc] at h; cases h; rfl
  · rw [if_neg hc] at h; cases h

lemma buildDf_ok_of {c : List String} {a : List (List Int)} (hne : a ≠ [])
    (hlen : c.length = 3) : buildDf c a = Except.ok ⟨c, a⟩ := by
  cases a with
  | nil => exact absurd rfl hne
  | cons x xs => simp [buildDf, hlen]

lemma ProcessData.run_ok_elim {t : VOTable} {libs : ExtLibs} {ip : String} {n : Nat}
    {r : ProcResult} (h : ProcessData.run t libs ip n = Except.ok r) :
    ∃ arr df gaiadf fig,
      buildArr t.rows = Except.ok arr ∧
      buildDf t.colnames arr = Except.ok df ∧
      selectCols df gaiamagcols = Except.ok gaiadf ∧
      mkFig t = Except.ok fig ∧
      r = { df := df, gaiadf := gaiadf, fig := fig,
            pandaStr := libs.jsonDumpsCtx (libs.describeHtml gaiadf) (libs.profileHtml gaiadf),
            log := ["Input VOTable file: " ++ ip,
                    libs.jsonDumpsCtx (libs.describeHtml gaiadf) (libs.profileHtml gaiadf)],
            outContent := libs.figJson fig } := by
  unfold ProcessData.run at h
  split at h
  · cases h
  · rename_i arr harr
    split at h
    · cases h
    · rename_i df hdf
      split at h
      · cases h
      · rename_i gaiadf hg
        split at h
        · cases h
        · rename_i fig hf
          cases h
          exact ⟨arr, df, gaiadf, fig, harr, hdf, hg, hf, rfl⟩

lemma ProcessData.run_ok_intro {t : VOTable} (libs : ExtLibs) (ip : String) (n : Nat)
    {arr : List (List Int)} {df : DataFrame} {gaiadf : DataFrame} {fig : Figure}
    (harr : buildArr t.rows = Except.ok arr)
    (hdf : buildDf t.colnames arr = Except.ok df)
    (hg : selectCols df gaiamagcols = Except.ok gaiadf)
    (hf : mkFig t = Except.ok fig) :
    ProcessData.run t libs ip n = Except.ok
      { df := df, gaiadf := gaiadf, fig := fig,
        pandaStr := libs.jsonDumpsCtx (libs.describeHtml gaiadf) (libs.profileHtml gaiadf),
        log := ["Input VOTable file: " ++ ip,
                libs.jsonDumpsCtx (libs.describeHtml gaiadf) (libs.profileHtml gaiadf)],
        outContent := libs.figJson fig } := by
  simp only [ProcessData.run, harr, hdf, hg, hf]

lemma ProcessData.run_error_of_buildArr {t : VOTable} (libs : ExtLibs) (ip : String) (n : Nat)
    {e : String} (harr : buildArr t.rows = Except.error e) :
    ProcessData.run t libs ip n = Except.error e := by
  simp only [ProcessData.run, harr]

lemma ProcessData.run_error_of_buildDf {t : VOTable} (libs : ExtLibs) (ip : String) (n : Nat)
    {arr : List (List Int)} {e : String} (harr : buildArr t.rows = Except.ok arr)
    (hdf : buildDf t.colnames arr = Except.error e) :
    ProcessData.run t libs ip n = Except.error e := by
  simp only [ProcessData.run, harr, hdf]

lemma ProcessData.run_error_of_selectCols {t : VOTable} (libs : ExtLibs) (ip : String) (n : Nat)
    {arr : List (List Int)} {df : DataFrame} {e : String}
    (harr : buildArr t.rows = Except.ok arr)
    (hdf : buildDf t.colnames arr = Except.ok df)
    (hg : selectCols df gaiamagcols = Except.error e) :
    ProcessData.run t libs ip n = Except.error e := by
  simp only [ProcessData.run, harr, hdf, hg]

lemma selectCols_error_of_missing {df : DataFrame} {names : List String} {n : String}
    (hn : n ∈ names) (hidx : colIndex df.colnames n = none) :
    ∃ e, selectCols df names = Except.error e := by
  have hfx : lookupIdx df.colnames n = Except.error ("KeyError: " ++ n) := by
    simp only [lookupIdx, hidx]
  obtain ⟨e2, he2⟩ := mapME_error_of_mem hn hfx
  exact ⟨e2, by simp only [selectCols, he2]⟩

lemma selectCols_ok_of_forall {df : DataFrame} {names : List String}
    (h : ∀ n ∈ names, ∃ i, colIndex df.colnames n = some i) :
    ∃ idxs : List Nat, selectCols df names
      = Except.ok ⟨names, df.rows.map (fun r => idxs.map (fun i => r.getD i 0))⟩ := by
  have hall : ∀ n ∈ names, ∃ i, lookupIdx df.colnames n = Except.ok i := by
    intro n hn
    obtain ⟨i, hi⟩ := h n hn
    exact ⟨i, by simp only [lookupIdx, hi]⟩
  obtain ⟨idxs, hidxs⟩ := mapME_ok_of_forall hall
  exact ⟨idxs, by simp only [selectCols, hidxs]⟩

lemma tblCol_error_of_not_mem {t : VOTable} {name : String} (h : name ∉ t.colnames) :
    tblCol t name = Except.error ("KeyError: " ++ name) := by
  unfold tblCol
  rw [colIndex_eq_none_of_not_mem h]

lemma tblCol_ok_of {t : VOTable} {name : String} {i : Nat}
    (h : colIndex t.colnames name = some i) :
    tblCol t name = Except.ok (t.rows.map (fun r => r.getD i 0)) := by
  unfold tblCol
  rw [h]

lemma mkFig_ok_of {t : VOTable} {i j k : Nat}
    (hx : colIndex t.colnames "ra_floor" = some i)
    (hy : colIndex t.colnames "dec_floor" = some j)
    (hc : colIndex t.colnames "nb" = some k) :
    mkFig t = Except.ok
      { xlabel := "ra", ylabel := "dec",
        points := List.insertionSort nbLe
          (t.rows.map (fun r => (r.getD i 0, r.getD j 0, r.getD k 0))),
        colorbarLabel := "Counts" } := by
  simp only [mkFig, tblCol_ok_of hx, tblCol_ok_of hy, tblCol_ok_of hc]
  rw [zip_map_triple (fun r : List Rat => r.getD i 0) (fun r => r.getD j 0)
        (fun r => r.getD k 0) t.rows]

lemma mkFig_error_of_missing {t : VOTable}
    (h : "ra_floor" ∉ t.colnames ∨ "dec_floor" ∉ t.colnames ∨ "nb" ∉ t.colnames) :
    ∃ e, mkFig t = Except.error e := by
  rcases h with hra | hdec | hnb
  · exact ⟨"KeyError: " ++ "ra_floor", by simp only [mkFig, tblCol_error_of_not_mem hra]⟩
  · cases hx : tblCol t "ra_floor" with
    | error e => exact ⟨e, by simp only [mkFig, hx]⟩
    | ok x =>
      exact ⟨"KeyError: " ++ "dec_floor", by simp only [mkFig, hx, tblCol_error_of_not_mem hdec]⟩
  · cases hx : tblCol t "ra_floor" with
    | error e => exact ⟨e, by simp only [mkFig, hx]⟩
    | ok x =>
      cases hy : tblCol t "dec_floor" with
      | error e => exact ⟨e, by simp only [mkFig, hx, hy]⟩
      | ok y =>
        exact ⟨"KeyError: " ++ "nb", by simp only [mkFig, hx, hy, tblCol_error_of_not_mem hnb]⟩

/-- Concrete instantiation of the external library renderers, used by the
witness statements. -/
def libsEx : ExtLibs :=
  { describeHtml := fun _ => "DESC", profileHtml := fun _ => "PROF",
    jsonDumpsCtx := fun a b => a ++ "|" ++ b, figJson := fun _ => "FIG" }

/-- A concrete two-row VOTable with the example schema; the first field of the
first row is the non-integer rational 7/2. -/
def tEx : VOTable :=
  { colnames := ["ra_floor", "dec_floor", "nb"],
    rows := [[mkRat 7 2, 2, 5], [3, 4, 2]] }

/-- The result of running the analysis stage on `tEx` with `libsEx`. -/
def rEx : ProcResult :=
  { df := ⟨["ra_floor", "dec_floor", "nb"], [[3, 2, 5], [3, 4, 2]]⟩,
    gaiadf := ⟨gaiamagcols, [[3, 2, 5], [3, 4, 2]]⟩,
    fig := { xlabel := "ra", ylabel := "dec",
             points := [((3 : Rat), (4 : Rat), (2 : Rat)), (mkRat 7 2, (2 : Rat), (5 : Rat))],
             colorbarLabel := "Counts" },
    pandaStr := "DESC|PROF",
    log := ["Input VOTable file: in", "DESC|PROF"],
    outContent := "FIG" }

/-- An empty filesystem. -/
def fsEx : FS := fun _ => none

/-- A filesystem in which every path is already populated. -/
def fs2Ex : FS := fun _ => some "OLD"

/-- A fully successful remote world returning a fixed payload. -/
def wOkEx : DlWorld :=
  { runOutcome := Except.ok (), fetchOutcome := Except.ok "PAYLOAD",
    writeOutcome := Except.ok () }

/-- A remote world whose job run completes but whose result fetch fails. -/
def wFetchErrEx : DlWorld :=
  { runOutcome := Except.ok (), fetchOutcome := Except.error "fetch failed",
    writeOutcome := Except.ok () }

/-- C6: for every run of the Placeholder Stage (DummyTask.run) with any
output-file-name parameter, after the run the file dummyData_<name>.vot under
the configured output directory exists and its content is exactly the fixed
marker string dummyStuff. -/
theorem dummyTask_writes_marker (dir name : String) (now : Nat) (fs : FS) :
    (DummyTask.run dir name now fs).1 (DummyTask.outPath dir name) = some "dummyStuff" := by
  simp [DummyTask.run, fsWrite]

/-- C3: for every run of the Remote Query Stage (DownloadData.run) whose query
parameter is absent or empty, the stage raises before any network interaction:
the outcome is an error, the event trace is empty (in particular no AsyncJob
was constructed or run), nothing is recorded as written, and the filesystem is
unchanged. -/
theorem downloadData_falsy_query_fails_before_network (q : Option String) (w : DlWorld)
    (now : Nat) (dir name : String) (fs : FS) (h : queryFalsy q = true) :
    (∃ e, (DownloadData.run q w now).result = Except.error e) ∧
    (DownloadData.run q w now).events = [] ∧
    (DownloadData.run q w now).written = none ∧
    (DownloadData.runFs q w now dir name fs).2 = fs := by
  have hrun : DownloadData.run q w now =
      { result := Except.error "query parameter must be provided within pipeline task",
        events := [], written := none } := by
    unfold DownloadData.run
    rw [if_pos h]
  refine ⟨⟨"query parameter must be provided within pipeline task", by rw [hrun]⟩,
    by rw [hrun], by rw [hrun], ?_⟩
  simp [DownloadData.runFs, hrun]

/-- Witness for C3 at the concrete input of a missing query parameter. -/
theorem downloadData_falsy_query_fails_before_network_witness :
    (∃ e, (DownloadData.run none wOkEx 0).result = Except.error e) ∧
    (DownloadData.run none wOkEx 0).events = [] ∧
    (DownloadData.run none wOkEx 0).written = none ∧
    (DownloadData.runFs none wOkEx 0 "out" "f" fsEx).2 = fsEx :=
  downloadData_falsy_query_fails_before_network none wOkEx 0 "out" "f" fsEx rfl

/-- C4: for every run of the Remote Query Stage with a non-empty query in
which the remote job completes, the result fetch returns a payload and the
local write succeeds, the content written to the output file is exactly the
fetched payload, byte for byte. -/
theorem downloadData_passthrough (s : String) (w : DlWorld) (now : Nat) (dir name : String)
    (fs : FS) (content : String) (hs : ¬ s = "")
    (hrun : w.runOutcome = Except.ok ()) (hfetch : w.fetchOutcome = Except.ok content)
    (hwrite : w.writeOutcome = Except.ok ()) :
    (DownloadData.run (some s) w now).written = some content ∧
    (DownloadData.run (some s) w now).result = Except.ok () ∧
    (DownloadData.runFs (some s) w now dir name fs).2 (DownloadData.outPath dir name)
      = some content := by
  have hq : queryFalsy (some s) = false := by simp [queryFalsy, hs]
  have hrun2 : DownloadData.run (some s) w now =
      { result := Except.ok (),
        events := [DlEvent.jobConstruct gacsTarget s, DlEvent.jobRun, DlEvent.openResult,
                   DlEvent.fileWrite content, DlEvent.jobDelete],
        written := some content } := by
    simp [DownloadData.run, hq, hrun, hfetch, hwrite]
  refine ⟨by rw [hrun2], by rw [hrun2], ?_⟩
  simp [DownloadData.runFs, hrun2, fsWrite]

/-- Witness for C4 at a concrete query and remote payload. -/
theorem downloadData_passthrough_witness :
    (DownloadData.run (some "SELECT TOP 1") wOkEx 0).written = some "PAYLOAD" ∧
    (DownloadData.run (some "SELECT TOP 1") wOkEx 0).result = Except.ok () ∧
    (DownloadData.runFs (some "SELECT TOP 1") wOkEx 0 "dir" "f" fsEx).2
      (DownloadData.outPath "dir" "f") = some "PAYLOAD" :=
  downloadData_passthrough "SELECT TOP 1" wOkEx 0 "dir" "f" fsEx "PAYLOAD"
    (by decide) rfl rfl rfl

/-- C10: in DownloadData.run the remote job is deleted only after the result
fetch and the output write have completed. If the job run completes but the
result fetch or the file write fails, no jobDelete action ever happens (no
cleanup on the error path); when the stage returns normally, the trace ends
with jobDelete, strictly after openResult and fileWrite. -/
theorem downloadData_delete_only_after_write (q : Option String) (w : DlWorld) (now : Nat) :
    (w.runOutcome = Except.ok () →
      ((∃ e, w.fetchOutcome = Except.error e) ∨ (∃ e, w.writeOutcome = Except.error e)) →
      DlEvent.jobDelete ∉ (DownloadData.run q w now).events) ∧
    ((DownloadData.run q w now).result = Except.ok () →
      ∃ content, (DownloadData.run q w now).written = some content ∧
        (DownloadData.run q w now).events =
          [DlEvent.jobConstruct gacsTarget (q.getD ""), DlEvent.jobRun, DlEvent.openResult,
           DlEvent.fileWrite content, DlEvent.jobDelete]) := by
  by_cases hq : queryFalsy q = true
  · constructor
    · intro _ _
      simp [DownloadData.run, hq]
    · intro hres
      exfalso
      simp [DownloadData.run, hq] at hres
  · cases hr : w.runOutcome with
    | error e =>
      constructor
      · intro _ _
        simp [DownloadData.run, hq, hr]
      · intro hres
        exfalso
        simp [DownloadData.run, hq, hr] at hres
    | ok u =>
      cases hf : w.fetchOutcome with
      | error e =>
        constructor
        · intro _ _
          simp [DownloadData.run, hq, hr, hf]
        · intro hres
          exfalso
          simp [DownloadData.run, hq, hr, hf] at hres
      | ok content =>
        cases hw : w.writeOutcome with
        | error e =>
          constructor
          · intro _ _
            simp [DownloadData.run, hq, hr, hf, hw]
          · intro hres
            exfalso
            simp [DownloadData.run, hq, hr, hf, hw] at hres
        | ok v =>
          constructor
          · intro _ hbad
            rcases hbad with ⟨e, he⟩ | ⟨e, he⟩
            · cases he
            · cases he
          · intro _
            exact ⟨content, by simp [DownloadData.run, hq, hr, hf, hw]⟩

/-- Witness for C10: with a failing fetch no delete happens; with a fully
successful world the delete is the final action after the write. -/
theorem downloadData_delete_only_after_write_witness :
    (DlEvent.jobDelete ∉ (DownloadData.run (some "SELECT TOP 1") wFetchErrEx 0).events) ∧
    (∃ content, (DownloadData.run (some "SELECT TOP 1") wOkEx 0).written = some content ∧
      (DownloadData.run (some "SELECT TOP 1") wOkEx 0).events =
        [DlEvent.jobConstruct gacsTarget ((some "SELECT TOP 1").getD ""), DlEvent.jobRun,
         DlEvent.openResult, DlEvent.fileWrite content, DlEvent.jobDelete]) :=
  ⟨(downloadData_delete_only_after_write (some "SELECT TOP 1") wFetchErrEx 0).1 rfl
      (Or.inl ⟨"fetch failed", rfl⟩),
   (downloadData_delete_only_after_write (some "SELECT TOP 1") wOkEx 0).2 rfl⟩

/-- C2: with identical parameters and identical inputs every stage produces
identical output bytes, whatever the clock value and whatever was previously
stored at the output path: DummyTask writes the same content at its output
path, DownloadData records the same written bytes, and ProcessData returns
the same result and writes the same output JSON over any two filesystems. -/
theorem stages_deterministic_output (dir name : String) (n1 n2 : Nat) (fs1 fs2 : FS)
    (q : Option String) (w : DlWorld) (t : VOTable) (libs : ExtLibs) (ip op : String) :
    ((DummyTask.run dir name n1 fs1).1 (DummyTask.outPath dir name)
      = (DummyTask.run dir name n2 fs2).1 (DummyTask.outPath dir name)) ∧
    ((DownloadData.run q w n1).written = (DownloadData.run q w n2).written) ∧
    (ProcessData.run t libs ip n1 = ProcessData.run t libs ip n2) ∧
    (∀ r, ProcessData.run t libs ip n1 = Except.ok r →
      (ProcessData.runFs t libs ip op n1 fs1).2 op = some r.outContent ∧
      (ProcessData.runFs t libs ip op n2 fs2).2 op = some r.outContent) := by
  refine ⟨by simp [DummyTask.run, fsWrite], rfl, rfl, ?_⟩
  intro r h
  have h2 : ProcessData.run t libs ip n2 = Except.ok r := h
  exact ⟨by simp [ProcessData.runFs, h, fsWrite], by simp [ProcessData.runFs, h2, fsWrite]⟩

/-- Witness for C2 at concrete inputs: two different clocks and two different
pre-existing filesystems. -/
theorem stages_deterministic_output_witness :
    ((DummyTask.run "dir" "f" 0 fsEx).1 (DummyTask.outPath "dir" "f")
      = (DummyTask.run "dir" "f" 7 fs2Ex).1 (DummyTask.outPath "dir" "f")) ∧
    ((DownloadData.run (some "Q") wOkEx 0).written
      = (DownloadData.run (some "Q") wOkEx 7).written) ∧
    (ProcessData.run tEx libsEx "in" 0 = ProcessData.run tEx libsEx "in" 7) ∧
    ((ProcessData.runFs tEx libsEx "in" "out" 0 fsEx).2 "out" = some rEx.outContent ∧
     (ProcessData.runFs tEx libsEx "in" "out" 7 fs2Ex).2 "out" = some rEx.outContent) := by
  have h := stages_deterministic_output "dir" "f" 0 7 fsEx fs2Ex (some "Q") wOkEx tEx libsEx
    "in" "out"
  exact ⟨h.1, h.2.1, h.2.2.1, h.2.2.2 rEx rfl⟩

/-- C1: for every successful run of the Analysis & Visualization Stage, the
content written to the output path is exactly the JSON serialization of the
figure; the analysis context is serialized (as panda_str, the json.dumps of
the describe HTML and profiling HTML) and appears in the log, but the output
artifact consists solely of the figure JSON. -/
theorem processData_output_only_figure_json (t : VOTable) (libs : ExtLibs) (ip op : String)
    (now : Nat) (fs : FS) (r : ProcResult)
    (h : ProcessData.run t libs ip now = Except.ok r) :
    r.outContent = libs.figJson r.fig ∧
    r.pandaStr = libs.jsonDumpsCtx (libs.describeHtml r.gaiadf) (libs.profileHtml r.gaiadf) ∧
    r.pandaStr ∈ r.log ∧
    (ProcessData.runFs t libs ip op now fs).2 op = some (libs.figJson r.fig) := by
  obtain ⟨arr, df, gaiadf, fig, harr, hdf, hg, hf, hr⟩ := ProcessData.run_ok_elim h
  subst hr
  refine ⟨rfl, rfl, by simp, ?_⟩
  simp [ProcessData.runFs, h, fsWrite]

/-- Witness for C1 at the concrete table tEx. -/
theorem processData_output_only_figure_json_witness :
    rEx.outContent = libsEx.figJson rEx.fig ∧
    rEx.pandaStr = libsEx.jsonDumpsCtx (libsEx.describeHtml rEx.gaiadf)
      (libsEx.profileHtml rEx.gaiadf) ∧
    rEx.pandaStr ∈ rEx.log ∧
    (ProcessData.runFs tEx libsEx "in" "out" 0 fsEx).2 "out"
      = some (libsEx.figJson rEx.fig) :=
  processData_output_only_figure_json tEx libsEx "in" "out" 0 fsEx rEx rfl

/-- C7: for every run of the Analysis Stage over a parsed table missing at
least one of the columns ra_floor, dec_floor, nb, the stage propagates an
error and the filesystem is left unchanged (no empty output artifact is
produced). -/
theorem processData_missing_column_fails (t : VOTable) (libs : ExtLibs) (ip op : String)
    (now : Nat) (fs : FS)
    (h : "ra_floor" ∉ t.colnames ∨ "dec_floor" ∉ t.colnames ∨ "nb" ∉ t.colnames) :
    (∃ e, ProcessData.run t libs ip now = Except.error e) ∧
    (ProcessData.runFs t libs ip op now fs).2 = fs := by
  have herr : ∃ e, ProcessData.run t libs ip now = Except.error e := by
    cases harr : buildArr t.rows with
    | error e => exact ⟨e, ProcessData.run_error_of_buildArr libs ip now harr⟩
    | ok arr =>
      cases hdf : buildDf t.colnames arr with
      | error e => exact ⟨e, ProcessData.run_error_of_buildDf libs ip now harr hdf⟩
      | ok df =>
        have hcols : df.colnames = t.colnames := by rw [buildDf_ok_elim hdf]
        have hmiss : ∃ n, n ∈ gaiamagcols ∧ colIndex df.colnames n = none := by
          rw [hcols]
          rcases h with h1 | h2 | h3
          · exact ⟨"ra_floor", by simp [gaiamagcols], colIndex_eq_none_of_not_mem h1⟩
          · exact ⟨"dec_floor", by simp [gaiamagcols], colIndex_eq_none_of_not_mem h2⟩
          · exact ⟨"nb", by simp [gaiamagcols], colIndex_eq_none_of_not_mem h3⟩
        obtain ⟨n, hn, hnone⟩ := hmiss
        obtain ⟨e, he⟩ := selectCols_error_of_missing hn hnone
        exact ⟨e, ProcessData.run_error_of_selectCols libs ip now harr hdf he⟩
  obtain ⟨e, he⟩ := herr
  exact ⟨⟨e, he⟩, by simp [ProcessData.runFs, he]⟩

/-- Witness for C7 at a concrete table whose third column is not nb. -/
theorem processData_missing_column_fails_witness :
    (∃ e, ProcessData.run
        { colnames := ["ra_floor", "dec_floor", "x"], rows := [[1, 2, 3]] }
        libsEx "in" 0 = Except.error e) ∧
    (ProcessData.runFs { colnames := ["ra_floor", "dec_floor", "x"], rows := [[1, 2, 3]] }
        libsEx "in" "out" 0 fsEx).2 = fsEx :=
  processData_missing_column_fails
    { colnames := ["ra_floor", "dec_floor", "x"], rows := [[1, 2, 3]] }
    libsEx "in" "out" 0 fsEx (Or.inr (Or.inr (by decide)))

/-- C9: in ProcessData.run each row is stored through an integer numpy array,
so every dataframe entry is the truncation toward zero of the corresponding
parsed field value; and truncation changes every non-integer rational, so
non-integer fields are not stored at their original values. -/
theorem processData_truncates_to_int (t : VOTable) (libs : ExtLibs) (ip : String) (now : Nat)
    (r : ProcResult) (h : ProcessData.run t libs ip now = Except.ok r) :
    r.df.rows = t.rows.map (fun d =>
      [ratTrunc (d.getD 0 0), ratTrunc (d.getD 1 0), ratTrunc (d.getD 2 0)]) ∧
    ∀ q : Rat, q.den ≠ 1 → (ratTrunc q : Rat) ≠ q := by
  constructor
  · obtain ⟨arr, df, gaiadf, fig, harr, hdf, hg, hf, hr⟩ := ProcessData.run_ok_elim h
    have harr2 : arr = t.rows.map (fun d =>
        [ratTrunc (d.getD 0 0), ratTrunc (d.getD 1 0), ratTrunc (d.getD 2 0)]) :=
      mapME_ok_map (fun x b hb => rowTriple_ok_eq hb) harr
    rw [hr, buildDf_ok_elim hdf]
    exact harr2
  · intro q hq heq
    exact hq (by rw [← heq]; exact Rat.den_intCast _)

/-- Witness for C9 at tEx, whose first field 7/2 is truncated to 3 and is not
stored at its original value. -/
theorem processData_truncates_to_int_witness :
    rEx.df.rows = tEx.rows.map (fun d =>
      [ratTrunc (d.getD 0 0), ratTrunc (d.getD 1 0), ratTrunc (d.getD 2 0)]) ∧
    (ratTrunc (mkRat 7 2) : Rat) ≠ mkRat 7 2 :=
  ⟨(processData_truncates_to_int tEx libsEx "in" 0 rEx rfl).1,
   (processData_truncates_to_int tEx libsEx "in" 0 rEx rfl).2 (mkRat 7 2) (by decide)⟩

/-- C8: every successful run of the Analysis Stage stores, for each input row,
exactly its first three fields (truncated to integers) as a three-entry matrix
row, and labels the dataframe with the original column names of the table; a
table whose schema does not have exactly three columns always makes the stage
fail. -/
theorem processData_matrix_exactly_three_columns (t : VOTable) (libs : ExtLibs) (ip : String)
    (now : Nat) :
    (∀ r, ProcessData.run t libs ip now = Except.ok r →
      r.df.colnames = t.colnames ∧
      r.df.rows = t.rows.map (fun d =>
        [ratTrunc (d.getD 0 0), ratTrunc (d.getD 1 0), ratTrunc (d.getD 2 0)]) ∧
      ∀ row ∈ r.df.rows, row.length = 3) ∧
    (t.colnames.length ≠ 3 → ∃ e, ProcessData.run t libs ip now = Except.error e) := by
  constructor
  · intro r h
    obtain ⟨arr, df, gaiadf, fig, harr, hdf, hg, hf, hr⟩ := ProcessData.run_ok_elim h
    have harr2 : arr = t.rows.map (fun d =>
        [ratTrunc (d.getD 0 0), ratTrunc (d.getD 1 0), ratTrunc (d.getD 2 0)]) :=
      mapME_ok_map (fun x b hb => rowTriple_ok_eq hb) harr
    have hdfe := buildDf_ok_elim hdf
    rw [hr, hdfe]
    refine ⟨rfl, harr2, ?_⟩
    intro row hrow
    rw [harr2] at hrow
    obtain ⟨d, _, hd⟩ := List.mem_map.mp hrow
    rw [← hd]
    rfl
  · intro hlen
    cases harr : buildArr t.rows with
    | error e => exact ⟨e, ProcessData.run_error_of_buildArr libs ip now harr⟩
    | ok arr =>
      cases arr with
      | nil =>
        by_cases h1 : t.colnames.length = 1
        · obtain ⟨c, hc⟩ := List.length_eq_one.mp h1
          have hdf : buildDf t.colnames [] = Except.ok ⟨t.colnames, []⟩ := by
            simp [buildDf, h1]
          have hmiss : ∃ n, n ∈ gaiamagcols ∧
              colIndex (DataFrame.mk t.colnames []).colnames n = none := by
            by_cases hra : c = "ra_floor"
            · refine ⟨"dec_floor", by simp [gaiamagcols], ?_⟩
              apply colIndex_eq_none_of_not_mem
              rw [hc, hra]
              intro hmem
              exact absurd (List.mem_singleton.mp hmem) (by decide)
            · refine ⟨"ra_floor", by simp [gaiamagcols], ?_⟩
              apply colIndex_eq_none_of_not_mem
              rw [hc]
              intro hmem
              exact hra (List.mem_singleton.mp hmem).symm
          obtain ⟨n, hn, hnone⟩ := hmiss
          obtain ⟨e, he⟩ := selectCols_error_of_missing hn hnone
          exact ⟨e, ProcessData.run_error_of_selectCols libs ip now harr hdf he⟩
        · have hdf : buildDf t.colnames []
              = Except.error "ValueError: shape of passed values does not match columns" := by
            simp [buildDf, h1]
          exact ⟨_, ProcessData.run_error_of_buildDf libs ip now harr hdf⟩
      | cons a as =>
        have hdf : buildDf t.colnames (a :: as)
            = Except.error "ValueError: shape of passed values does not match columns" := by
          simp [buildDf, hlen]
        exact ⟨_, ProcessData.run_error_of_buildDf libs ip now harr hdf⟩

/-- Witness for C8: the positive part at the concrete table tEx, and the
failure part at a concrete two-column schema. -/
theorem processData_matrix_exactly_three_columns_witness :
    (rEx.df.colnames = tEx.colnames ∧
     rEx.df.rows = tEx.rows.map (fun d =>
       [ratTrunc (d.getD 0 0), ratTrunc (d.getD 1 0), ratTrunc (d.getD 2 0)]) ∧
     ∀ row ∈ rEx.df.rows, row.length = 3) ∧
    (∃ e, ProcessData.run { colnames := ["a", "b"], rows := [[1, 2, 3]] } libsEx "in" 0
      = Except.error e) :=
  ⟨(processData_matrix_exactly_three_columns tEx libsEx "in" 0).1 rEx rfl,
   (processData_matrix_exactly_three_columns
      { colnames := ["a", "b"], rows := [[1, 2, 3]] } libsEx "in" 0).2 (by decide)⟩

/-- Counterexample to C5 as stated: over a VOTable that has exactly the
columns ra_floor, dec_floor, nb and N = 0 rows, the Analysis Stage does not
produce a figure with 0 data points; it fails in the dataframe construction,
because the one-dimensional empty numpy array is treated by pandas as a single
column that does not match the three column labels. -/
theorem processData_scatter_empty_table_fails :
    ProcessData.run { colnames := ["ra_floor", "dec_floor", "nb"], rows := [] } libsEx "in" 0
      = Except.error "ValueError: shape of passed values does not match columns" := by
  rfl

/-- C5 (amended to N at least 1): for every run of the Analysis Stage over a
VOTable that contains the columns ra_floor, dec_floor, nb among exactly three
columns and has at least one row, each row carrying at least the three fields,
the run succeeds and the scatter figure contains exactly N data points with
x drawn from ra_floor, y from dec_floor and color from nb, ordered ascending
by the nb column, and the color bar is labeled Counts. -/
theorem processData_scatter_sorted_points (t : VOTable) (libs : ExtLibs) (ip : String)
    (now : Nat)
    (hra : "ra_floor" ∈ t.colnames) (hdec : "dec_floor" ∈ t.colnames)
    (hnb : "nb" ∈ t.colnames) (hlen : t.colnames.length = 3)
    (hwf : ∀ row ∈ t.rows, 3 ≤ row.length) (hne : t.rows ≠ []) :
    ∃ r i j k,
      ProcessData.run t libs ip now = Except.ok r ∧
      colIndex t.colnames "ra_floor" = some i ∧
      colIndex t.colnames "dec_floor" = some j ∧
      colIndex t.colnames "nb" = some k ∧
      r.fig.points.Perm
        (t.rows.map (fun row => (row.getD i 0, row.getD j 0, row.getD k 0))) ∧
      List.Sorted nbLe r.fig.points ∧
      r.fig.points.length = t.rows.length ∧
      r.fig.colorbarLabel = "Counts" := by
  obtain ⟨i, hi⟩ := colIndex_isSome_of_mem hra
  obtain ⟨j, hj⟩ := colIndex_isSome_of_mem hdec
  obtain ⟨k, hk⟩ := colIndex_isSome_of_mem hnb
  obtain ⟨arr, harr⟩ := mapME_ok_of_forall (fun d hd => rowTriple_ok_of_len (hwf d hd))
  have harrB : buildArr t.rows = Except.ok arr := harr
  have harrNe : arr ≠ [] := by
    intro h0
    have hl := mapME_ok_length harrB
    rw [h0] at hl
    exact hne (List.length_eq_zero.mp hl.symm)
  have hdf := buildDf_ok_of harrNe hlen
  have hsel : ∀ n ∈ gaiamagcols,
      ∃ m, colIndex (DataFrame.mk t.colnames arr).colnames n = some m := by
    intro n hn
    have hn3 : n = "ra_floor" ∨ n = "dec_floor" ∨ n = "nb" := by
      simpa [gaiamagcols] using hn
    rcases hn3 with hn1 | hn1 | hn1
    · exact ⟨i, by rw [hn1]; exact hi⟩
    · exact ⟨j, by rw [hn1]; exact hj⟩
    · exact ⟨k, by rw [hn1]; exact hk⟩
  obtain ⟨idxs, hselOk⟩ := selectCols_ok_of_forall hsel
  have hfig := mkFig_ok_of hi hj hk
  have hrun := ProcessData.run_ok_intro libs ip now harrB hdf hselOk hfig
  refine ⟨_, i, j, k, hrun, hi, hj, hk, ?_, ?_, ?_, rfl⟩
  · exact List.perm_insertionSort nbLe _
  · exact List.sorted_insertionSort nbLe _
  · show (List.insertionSort nbLe
        (t.rows.map (fun row => (row.getD i 0, row.getD j 0, row.getD k 0)))).length
      = t.rows.length
    rw [List.length_insertionSort, List.length_map]

/-- Witness for the amended C5 at the concrete table tEx. -/
theorem processData_scatter_sorted_points_witness :
    ∃ r i j k,
      ProcessData.run tEx libsEx "in" 0 = Except.ok r ∧
      colIndex tEx.colnames "ra_floor" = some i ∧
      colIndex tEx.colnames "dec_floor" = some j ∧
      colIndex tEx.colnames "nb" = some k ∧
      r.fig.points.Perm
        (tEx.rows.map (fun row => (row.getD i 0, row.getD j 0, row.getD k 0))) ∧
      List.Sorted nbLe r.fig.points ∧
      r.fig.points.length = tEx.rows.length ∧
      r.fig.colorbarLabel = "Counts" :=
  processData_scatter_sorted_points tEx libsEx "in" 0 (by decide) (by decide) (by decide)
    (by decide) (by decide) (by decide)
